import Mathlib

/-!
Shallow embedding of the backup reconciliation controller in
`pkg/controller/perconaxtradbbackup/perconaxtradbbackup_controller.go`.

The controller talks to an external state store (Kubernetes API) through a
client.  Every store interaction is modelled by an `Env` record that fixes
the outcome of each call the reconciliation makes; `reconcile` is then a
pure function of the environment.  Observable side effects (volume create
calls, poll fetches, sleeps, the job create call, the status write) are
collected in an `Effects` record so the theorems can speak about them.
-/

namespace PXCBackup

/-- Result of a single state-store read (`client.Get` and the distinguished
`errors.IsNotFound` classification used by the Go code). -/
inductive GetResult (α : Type) where
  | ok (a : α)
  | notFound
  | errMsg (m : String)
deriving DecidableEq, Repr

/-- Result of a state-store create (`client.Create` and the
`errors.IsAlreadyExists` classification). -/
inductive CreateResult where
  | ok
  | alreadyExists
  | err (m : String)
deriving DecidableEq, Repr

/-- Volume phase, mirroring the `VolumeStatus` string constants of the
controller (`Undefined`, and the three `corev1` claim phases). -/
inductive VolumeStatus where
  | undefined
  | pending
  | bound
  | lost
deriving DecidableEq, Repr

/-- Modelled from the spec: backup status states (section 6 gives the enum
`Starting|Running|Succeeded|Failed`); the api package carrying the
constants `BackupStarting` etc. is not part of the sources. -/
inductive BcpState where
  | starting
  | running
  | succeeded
  | failed
deriving DecidableEq, Repr

/-- A wall-clock timestamp, standing in for Go `time.Time` to the precision
the controller formats (year, month, day, hour, minute, second). -/
structure GoTime where
  year : Nat
  month : Nat
  day : Nat
  hour : Nat
  minute : Nat
  second : Nat
deriving DecidableEq, Repr

/-- Modelled from the spec: the ObjectStorage profile payload (bucket and
credential reference, section 6); the api package declaring
`BackupStorageS3Spec` is not part of the sources. -/
structure BackupStorageS3Spec where
  bucket : String
  credentialsSecret : String
  region : String
deriving DecidableEq, Repr

/-- Storage profile kind.  The Go type is a string; the switch in
`Reconcile` handles `filesystem` and `s3` and silently falls through on
anything else, so a third constructor keeps that path representable. -/
inductive BackupStorageType where
  | filesystem
  | s3
  | other (t : String)
deriving DecidableEq, Repr

/-- Modelled from the spec: a storage profile is a tagged variant carrying a
volume-claim template or an S3 descriptor (sections 3 and 6). -/
structure BackupStorageSpec where
  type : BackupStorageType
  volumePVCSpec : String
  s3 : BackupStorageS3Spec
deriving DecidableEq, Repr

/-- Modelled from the spec: the cluster's `Spec.Backup` sub-spec, a mapping
from storage-profile name to profile (section 6); Go maps are embedded as
association lists. -/
structure PXCBackupSpec where
  storages : List (String × BackupStorageSpec)
deriving DecidableEq, Repr

/-- The slice of a `PerconaXtraDBCluster` the controller reads: its name and
optional backup sub-spec. -/
structure PerconaXtraDBCluster where
  name : String
  backup : Option PXCBackupSpec
deriving DecidableEq, Repr

/-- Modelled from the spec: the `PXCBackupStatus` record persisted on the
backup request (section 6): state, optional completion time, destination,
echoed storage name, optional S3 descriptor. -/
structure PXCBackupStatus where
  state : BcpState
  completedAt : Option GoTime
  destination : String
  storageName : String
  s3 : Option BackupStorageS3Spec
deriving DecidableEq, Repr

/-- Modelled from the spec: the user-written spec of a BackupRequest
(target cluster name and storage-profile name, section 6). -/
structure PerconaXtraDBBackupSpec where
  pxcCluster : String
  storageName : String
deriving DecidableEq, Repr

/-- The slice of a `PerconaXtraDBBackup` object the controller reads and
writes. -/
structure PerconaXtraDBBackup where
  name : String
  ns : String
  spec : PerconaXtraDBBackupSpec
  creationTimestamp : GoTime
  status : PXCBackupStatus
deriving DecidableEq, Repr

/-- The run counters and completion time of the backup job
(`batchv1.Job.Status`). -/
structure JobStatus where
  active : Nat
  succeeded : Nat
  failed : Nat
  completionTime : Option GoTime
deriving DecidableEq, Repr

/-- Structured rendering of every `fmt.Errorf` the controller can return;
each constructor carries exactly the data the corresponding format string
interpolates. -/
inductive RcError where
  | getBackup (m : String)
  | clusterList (m : String)
  | clusterNotFound (requested : String) (available : List String)
  | noBackupImage
  | selectNode (m : String)
  | storageMissing (name : String)
  | setRefPVC (m : String)
  | createPVC (m : String)
  | getPVCStatus (m : String)
  | pvcNotReady (last : VolumeStatus)
  | setStorageFS (m : String)
  | setStorageS3 (m : String)
  | setRefJob (m : String)
  | createJob (m : String)
  | getJobStatus (m : String)
  | updateStatus (m : String)
deriving DecidableEq, Repr

/-- Outcomes of every external call one reconciliation can make, fixed up
front so `reconcile` is a pure function.  `pollPhase i` is the result of
the i-th volume status fetch of the retry loop (i counted from 1). -/
structure Env where
  getBackup : GetResult PerconaXtraDBBackup
  clusterList : Except String (List PerconaXtraDBCluster)
  selectNode : Except String String
  preGetPVC : GetResult Unit
  createPVC : CreateResult
  pollPhase : Nat → GetResult VolumeStatus
  setStoragePVC : Option String
  setStorageS3 : Option String
  setRefPVC : Option String
  setRefJob : Option String
  createJob : CreateResult
  getJob : GetResult JobStatus
  updateErr : Option String

/-- Observable side effects of one reconciliation: names passed to the
volume create call, the phases fetched by the poll loop, the seconds slept
after each failed attempt, whether the job create call was issued, and
whether the status update call was issued. -/
structure Effects where
  pvcCreates : List String
  pollFetches : List VolumeStatus
  sleeps : List Nat
  jobCreateTried : Bool
  statusWrote : Bool
deriving DecidableEq, Repr

/-- No side effects yet. -/
def Effects.empty : Effects := ⟨[], [], [], false, false⟩

/-- Result of one reconciliation: the `reconcile.Result` requeue delay in
seconds (0 models the empty `reconcile.Result{}`), the returned error, the
collected effects, and the in-memory `bcp.Status` at return (`none` when
the instance was never fetched). -/
structure ReconcileOut where
  requeueAfter : Nat
  error : Option RcError
  effects : Effects
  finalStatus : Option PXCBackupStatus
deriving DecidableEq, Repr

/-- Destination recorded on the final status, `""` when no instance. -/
def statusDestination (r : ReconcileOut) : String :=
  match r.finalStatus with
  | some s => s.destination
  | none => ""

/-- Embedding of Go `strings.HasPrefix`, via a character-list test. -/
def leadsWith : List Char → List Char → Bool
  | [], _ => true
  | _ :: _, [] => false
  | p :: ps, c :: cs => p == c && leadsWith ps cs

/-- Go `strings.HasPrefix s pre`. -/
def goHasPrefix (s pre : String) : Bool := leadsWith pre.toList s.toList

/-- Number of positions of `s` at which `pat` occurs as a substring. -/
def occCount (pat : List Char) : List Char → Nat
  | [] => 0
  | c :: rest => (if leadsWith pat (c :: rest) then 1 else 0) + occCount pat rest

/-- Number of occurrences of `pat` inside `s`. -/
def countOccur (pat s : String) : Nat := occCount pat.toList s.toList

/-- Two-digit zero padding, as Go's `01`/`02`/`15`/`04`/`05` layout verbs. -/
def pad2 (n : Nat) : String := if n < 10 then "0" ++ Nat.repr n else Nat.repr n

/-- Four-digit zero padding, as Go's `2006` layout verb. -/
def pad4 (n : Nat) : String :=
  if n < 10 then "000" ++ Nat.repr n
  else if n < 100 then "00" ++ Nat.repr n
  else if n < 1000 then "0" ++ Nat.repr n
  else Nat.repr n

/-- Go `t.Format("2006-02-01-15:04:05")`: in Go's reference-date layout,
`2006` is the year, `02` the day and `01` the month, so this renders
year-day-month-hour:minute:second. -/
def formatBackupTime (t : GoTime) : String :=
  pad4 t.year ++ "-" ++ pad2 t.day ++ "-" ++ pad2 t.month ++ "-" ++
    pad2 t.hour ++ ":" ++ pad2 t.minute ++ ":" ++ pad2 t.second

/-- The hardcoded volume name assigned on the filesystem path
(`pvc.ObjectMeta.Name = "cluster1-xb-cron-pvc"`). -/
def backupPVCName : String := "cluster1-xb-cron-pvc"

/-- Lines 184-187: the object-storage destination.  The raw string is
`bucket + "/" + cluster + "-" + timestamp + "-xtrabackup.stream"`; the
`s3://` scheme is prepended to the whole destination when the bucket does
not already start with it. -/
def s3Destination (bucket clusterName : String) (t : GoTime) : String :=
  let d := bucket ++ "/" ++ clusterName ++ "-" ++ formatBackupTime t ++ "-xtrabackup.stream"
  if goHasPrefix bucket "s3://" then d else "s3://" ++ d

/-- Lines 226-234 of `getClusterConfig`: scan the listed clusters for the
first one whose name matches, accumulating the names of non-matching
clusters; when nothing matches, fail with that accumulated name list. -/
def findCluster (want : String) : List PerconaXtraDBCluster → List String →
    Except (List String) PerconaXtraDBCluster
  | [], acc => .error acc
  | c :: rest, acc => if c.name = want then .ok c else findCluster want rest (acc ++ [c.name])

/-- Go map indexing `cluster.Spec.Backup.Storages[name]` on the
association-list embedding of the map. -/
def lookupStorage (storages : List (String × BackupStorageSpec)) (name : String) :
    Option BackupStorageSpec :=
  (storages.find? (fun kv => kv.1 = name)).map (fun kv => kv.2)

/-- The phase value the loop variable `pvcStatus` holds after one fetch:
the fetched phase on success, `VolumeUndefined` on any error (the helper
`pvcStatus` returns `VolumeUndefined` together with the error). -/
def observedPhase : GetResult VolumeStatus → VolumeStatus
  | .ok p => p
  | .notFound => .undefined
  | .errMsg _ => .undefined

/-- Outcome of the poll loop of lines 161-173: the phases fetched in order,
the seconds slept in order, the final value of `pvcStatus`, and the fatal
`get pvc status` error, if any. -/
structure PollOut where
  fetched : List VolumeStatus
  sleeps : List Nat
  last : VolumeStatus
  fatal : Option String
deriving DecidableEq, Repr

/-- Lines 161-173, the body of `for i := 1; i <= 5; i++`: fetch the phase;
a non-NotFound fetch error is fatal; phase `Bound` breaks out; otherwise
sleep `i` seconds (this happens on every failed attempt, the final one
included) and go around.  `i` is the attempt index, `k` the remaining
iterations, `cur` the current value of `pvcStatus`. -/
def pollAux (phase : Nat → GetResult VolumeStatus) : Nat → Nat → VolumeStatus → PollOut
  | _, 0, cur => ⟨[], [], cur, none⟩
  | i, k + 1, _ =>
    match phase i with
    | .errMsg m => ⟨[.undefined], [], .undefined, some m⟩
    | .notFound =>
      let rest := pollAux phase (i + 1) k .undefined
      ⟨.undefined :: rest.fetched, i :: rest.sleeps, rest.last, rest.fatal⟩
    | .ok p =>
      if p = .bound then ⟨[p], [], p, none⟩
      else
        let rest := pollAux phase (i + 1) k p
        ⟨p :: rest.fetched, i :: rest.sleeps, rest.last, rest.fatal⟩

/-- The full poll loop: five attempts starting at `i = 1`. -/
def pollPVC (phase : Nat → GetResult VolumeStatus) : PollOut :=
  pollAux phase 1 5 .undefined

/-- Lines 274-282: the candidate status derived from the fetched job.
`Starting` is the default; `Active == 1` gives `Running`; otherwise
`Succeeded == 1` gives `Succeeded` with the completion time copied from
the job; otherwise `Failed == 1` gives `Failed`. -/
def deriveStatus (j : JobStatus) (destination storageName : String)
    (s3 : Option BackupStorageS3Spec) : PXCBackupStatus :=
  if j.active = 1 then ⟨.running, none, destination, storageName, s3⟩
  else if j.succeeded = 1 then ⟨.succeeded, j.completionTime, destination, storageName, s3⟩
  else if j.failed = 1 then ⟨.failed, none, destination, storageName, s3⟩
  else ⟨.starting, none, destination, storageName, s3⟩

/-- Result of `updateJobStatus`: the error, whether the `Update` call was
issued, and the in-memory `bcp.Status` afterwards. -/
structure UpdateOut where
  error : Option RcError
  wrote : Bool
  finalStored : PXCBackupStatus
deriving DecidableEq, Repr

/-- Lines 256-291, `updateJobStatus`: refetch the job (NotFound is success
with no write, any other error is fatal); derive the candidate status;
skip the write when it `DeepEqual`s the stored status; otherwise replace
the stored status and issue the update. -/
def updateJobStatus (stored : PXCBackupStatus) (getJob : GetResult JobStatus)
    (destination storageName : String) (s3 : Option BackupStorageS3Spec)
    (updateErr : Option String) : UpdateOut :=
  match getJob with
  | .notFound => ⟨none, false, stored⟩
  | .errMsg m => ⟨some (.getJobStatus m), false, stored⟩
  | .ok j =>
    let status := deriveStatus j destination storageName s3
    if stored = status then ⟨none, false, stored⟩
    else
      match updateErr with
      | none => ⟨none, true, status⟩
      | some m => ⟨some (.updateStatus m), true, status⟩

/-- Lines 196-210, the common tail of `Reconcile`: set the owner reference
on the job, create the job (an `IsAlreadyExists` failure is not an error),
then run `updateJobStatus`; the result is returned together with the
standing 5-second requeue. -/
def finishJob (env : Env) (stored : PXCBackupStatus) (destination storageName : String)
    (s3 : Option BackupStorageS3Spec) (effs : Effects) : ReconcileOut :=
  match env.setRefJob with
  | some m => ⟨0, some (.setRefJob m), effs, some stored⟩
  | none =>
    match env.createJob with
    | .err m => ⟨0, some (.createJob m), { effs with jobCreateTried := true }, some stored⟩
    | _ =>
      let u := updateJobStatus stored env.getJob destination storageName s3 env.updateErr
      ⟨5, u.error, { effs with jobCreateTried := true, statusWrote := u.wrote },
        some u.finalStored⟩

/-- Lines 161-182 after a poll outcome `p`: a fatal poll fetch error aborts;
a final phase other than `Bound` aborts with `pvc not ready` carrying that
phase; otherwise wire the volume into the job spec and continue to the
common tail with destination `"pvc/" + name`. -/
def pollDone (env : Env) (inst : PerconaXtraDBBackup) (p : PollOut) (effs : Effects) :
    ReconcileOut :=
  match p.fatal with
  | some m =>
    ⟨0, some (.getPVCStatus m),
      { effs with pollFetches := p.fetched, sleeps := p.sleeps }, some inst.status⟩
  | none =>
    if p.last = .bound then
      match env.setStoragePVC with
      | some m =>
        ⟨0, some (.setStorageFS m),
          { effs with pollFetches := p.fetched, sleeps := p.sleeps }, some inst.status⟩
      | none =>
        finishJob env inst.status ("pvc/" ++ backupPVCName) inst.spec.storageName none
          { effs with pollFetches := p.fetched, sleeps := p.sleeps }
    else
      ⟨0, some (.pvcNotReady p.last),
        { effs with pollFetches := p.fetched, sleeps := p.sleeps }, some inst.status⟩

/-- Run the poll loop and dispatch on its outcome. -/
def fsPoll (env : Env) (inst : PerconaXtraDBBackup) (effs : Effects) : ReconcileOut :=
  pollDone env inst (pollPVC env.pollPhase) effs

/-- Lines 139-182, the filesystem branch: name the volume with the fixed
literal, set the owner reference, fetch the existing volume — creating it
only when that fetch reports NotFound (any other fetch error skips the
create and falls through), — then poll. -/
def fsPath (env : Env) (inst : PerconaXtraDBBackup) : ReconcileOut :=
  match env.setRefPVC with
  | some m => ⟨0, some (.setRefPVC m), Effects.empty, some inst.status⟩
  | none =>
    match env.preGetPVC with
    | .notFound =>
      match env.createPVC with
      | .ok => fsPoll env inst { Effects.empty with pvcCreates := [backupPVCName] }
      | .alreadyExists =>
        ⟨0, some (.createPVC "already exists"),
          { Effects.empty with pvcCreates := [backupPVCName] }, some inst.status⟩
      | .err m =>
        ⟨0, some (.createPVC m),
          { Effects.empty with pvcCreates := [backupPVCName] }, some inst.status⟩
    | .ok _ => fsPoll env inst Effects.empty
    | .errMsg _ => fsPoll env inst Effects.empty

/-- Lines 183-194, the object-storage branch: build the destination, wire
the S3 storage into the job spec, and continue to the common tail with the
S3 descriptor echoed into the status. -/
def s3Path (env : Env) (inst : PerconaXtraDBBackup) (storage : BackupStorageSpec) :
    ReconcileOut :=
  match env.setStorageS3 with
  | some m => ⟨0, some (.setStorageS3 m), Effects.empty, some inst.status⟩
  | none =>
    finishJob env inst.status
      (s3Destination storage.s3.bucket inst.spec.pxcCluster inst.creationTimestamp)
      inst.spec.storageName (some storage.s3) Effects.empty

/-- Lines 90-211, `Reconcile`: fetch the backup request (NotFound returns
the standing 5-second requeue with no error; any other fetch error returns
the empty result with the error), resolve the cluster, require a backup
sub-spec, select a node, look up the storage profile, and dispatch on its
kind; an unknown kind falls through the switch to the common tail with an
empty destination. -/
def reconcile (env : Env) : ReconcileOut :=
  match env.getBackup with
  | .notFound => ⟨5, none, Effects.empty, none⟩
  | .errMsg m => ⟨0, some (.getBackup m), Effects.empty, none⟩
  | .ok inst =>
    match env.clusterList with
    | .error m => ⟨0, some (.clusterList m), Effects.empty, some inst.status⟩
    | .ok items =>
      match findCluster inst.spec.pxcCluster items [] with
      | .error avail =>
        ⟨0, some (.clusterNotFound inst.spec.pxcCluster avail), Effects.empty,
          some inst.status⟩
      | .ok cluster =>
        match cluster.backup with
        | none => ⟨0, some .noBackupImage, Effects.empty, some inst.status⟩
        | some bspec =>
          match env.selectNode with
          | .error m => ⟨0, some (.selectNode m), Effects.empty, some inst.status⟩
          | .ok _ =>
            match lookupStorage bspec.storages inst.spec.storageName with
            | none =>
              ⟨0, some (.storageMissing inst.spec.storageName), Effects.empty,
                some inst.status⟩
            | some storage =>
              match storage.type with
              | .filesystem => fsPath env inst
              | .s3 => s3Path env inst storage
              | .other _ =>
                finishJob env inst.status "" inst.spec.storageName none Effects.empty

/-- The errors that flow out of `updateJobStatus` and are therefore
returned *alongside* the standing 5-second requeue (line 210 `return rr,
err`), as opposed to the earlier fatal returns of the empty result. -/
def requeues5 : Option RcError → Bool
  | none => true
  | some (.getJobStatus _) => true
  | some (.updateStatus _) => true
  | some _ => false

/-! Concrete fixtures used by witnesses and counterexamples. -/

/-- The creation time 2024-03-07T15:04:05Z of the spec's worked example. -/
def t0 : GoTime := ⟨2024, 3, 7, 15, 4, 5⟩

/-- A stored status that differs from any candidate the fixtures derive. -/
def emptyStatus : PXCBackupStatus := ⟨.starting, none, "", "", none⟩

/-- A filesystem storage profile. -/
def fsStorage : BackupStorageSpec := ⟨.filesystem, "pvc-template", ⟨"", "", ""⟩⟩

/-- An object-storage profile over the given bucket. -/
def s3Storage (bucket : String) : BackupStorageSpec :=
  ⟨.s3, "", ⟨bucket, "my-cluster-name-backup-s3", "us-west-2"⟩⟩

/-- A backup request naming cluster `some-name` and profile `fs-pvc`. -/
def instFS : PerconaXtraDBBackup := ⟨"backup1", "ns1", ⟨"some-name", "fs-pvc"⟩, t0, emptyStatus⟩

/-- A backup request naming cluster `some-name` and profile `s3-us-west`. -/
def instS3 : PerconaXtraDBBackup := ⟨"backup2", "ns1", ⟨"some-name", "s3-us-west"⟩, t0, emptyStatus⟩

/-- A cluster declaring the filesystem profile. -/
def clusterFS : PerconaXtraDBCluster := ⟨"some-name", some ⟨[("fs-pvc", fsStorage)]⟩⟩

/-- A cluster declaring the object-storage profile over the given bucket. -/
def clusterS3 (bucket : String) : PerconaXtraDBCluster :=
  ⟨"some-name", some ⟨[("s3-us-west", s3Storage bucket)]⟩⟩

/-- A job that has succeeded once, with a completion time. -/
def jobDone : JobStatus := ⟨0, 1, 0, some t0⟩

/-- An environment in which every call succeeds and the volume is bound on
the first poll; the filesystem request and cluster are in place. -/
def baseEnvFS : Env :=
  { getBackup := .ok instFS
    clusterList := .ok [clusterFS]
    selectNode := .ok "node-0"
    preGetPVC := .notFound
    createPVC := .ok
    pollPhase := fun _ => .ok .bound
    setStoragePVC := none
    setStorageS3 := none
    setRefPVC := none
    setRefJob := none
    createJob := .ok
    getJob := .ok jobDone
    updateErr := none }

/-- The all-success environment redirected at the object-storage cluster
over the given bucket. -/
def envS3 (bucket : String) : Env :=
  { baseEnvFS with getBackup := .ok instS3, clusterList := .ok [clusterS3 bucket] }

/-- Environment in which the volume phase is `Pending` on every poll. -/
def envNeverBound : Env := { baseEnvFS with pollPhase := fun _ => .ok .pending }

/-- The never-bound environment with the volume already existing, so the
filesystem branch reaches the poll loop through the fetch-succeeded case. -/
def envC1Wit : Env := { envNeverBound with preGetPVC := .ok () }

/-- Environment in which the backup request is gone at the initial fetch. -/
def envNotFoundReq : Env := { baseEnvFS with getBackup := .notFound }

/-- Environment whose target cluster declares no backup sub-spec. -/
def envNoBackupSection : Env := { baseEnvFS with clusterList := .ok [⟨"some-name", none⟩] }

/-- Environment in which the pre-creation volume fetch fails with an error
that is not NotFound, while everything else succeeds. -/
def envPreGetFails : Env := { baseEnvFS with preGetPVC := .errMsg "etcd read failed" }

/-- Environment whose backup request names a cluster absent from the
namespace (the namespace holds only `some-name`). -/
def envWrongCluster : Env :=
  { baseEnvFS with getBackup := .ok ⟨"b", "ns1", ⟨"other", "fs-pvc"⟩, t0, emptyStatus⟩ }

/-! ### Theorems -/

/-- Auxiliary: when no listed cluster matches, the scan returns the
accumulated names followed by the names of every remaining cluster. -/
theorem findCluster_all_miss (want : String) :
    ∀ (items : List PerconaXtraDBCluster) (acc : List String),
      (∀ c ∈ items, c.name ≠ want) →
      findCluster want items acc = .error (acc ++ items.map (fun c => c.name)) := by
  intro items
  induction items with
  | nil => intro acc _; simp [findCluster]
  | cons c rest ih =>
    intro acc h
    have hc : c.name ≠ want := h c (by simp)
    have hr : ∀ c' ∈ rest, c'.name ≠ want := fun c' hm => h c' (by simp [hm])
    simp only [findCluster, hc, if_false, ih (acc ++ [c.name]) hr, List.map_cons,
      List.append_assoc, List.singleton_append]

/-- Claim C3: the candidate state is `Running` when the active count is 1,
else `Succeeded` (with the job's completion time copied) when the
succeeded count is 1, else `Failed` when the failed count is 1, else the
default `Starting`; and, for jobs that carry a completion timestamp once
succeeded, `completedAt` is set if and only if the state is `Succeeded`. -/
theorem c3_status_derivation (j : JobStatus) (d sn : String) (s3 : Option BackupStorageS3Spec)
    (hct : j.succeeded = 1 → j.completionTime.isSome = true) :
    ((deriveStatus j d sn s3).state = .running ↔ j.active = 1) ∧
    ((deriveStatus j d sn s3).state = .succeeded ↔ j.active ≠ 1 ∧ j.succeeded = 1) ∧
    ((deriveStatus j d sn s3).state = .failed ↔
      j.active ≠ 1 ∧ j.succeeded ≠ 1 ∧ j.failed = 1) ∧
    ((deriveStatus j d sn s3).state = .starting ↔
      j.active ≠ 1 ∧ j.succeeded ≠ 1 ∧ j.failed ≠ 1) ∧
    ((deriveStatus j d sn s3).state = .succeeded →
      (deriveStatus j d sn s3).completedAt = j.completionTime) ∧
    ((deriveStatus j d sn s3).completedAt.isSome = true ↔
      (deriveStatus j d sn s3).state = .succeeded) := by
  unfold deriveStatus
  by_cases h1 : j.active = 1 <;> by_cases h2 : j.succeeded = 1 <;>
    by_cases h3 : j.failed = 1 <;> simp_all

/-- Witness for C3 at a once-succeeded job carrying a completion time. -/
theorem c3_status_derivation_witness :
    (deriveStatus ⟨0, 1, 0, some t0⟩ "d" "p" none).completedAt.isSome = true ↔
      (deriveStatus ⟨0, 1, 0, some t0⟩ "d" "p" none).state = .succeeded :=
  (c3_status_derivation ⟨0, 1, 0, some t0⟩ "d" "p" none (by decide)).2.2.2.2.2

/-- Claim C10: the run counters are compared with 1 for equality, not with
a lower bound: whenever none of them equals 1 the derived state is the
default `Starting` and `completedAt` stays unset. -/
theorem c10_strict_equality_one (j : JobStatus) (d sn : String)
    (s3 : Option BackupStorageS3Spec)
    (ha : j.active ≠ 1) (hs : j.succeeded ≠ 1) (hf : j.failed ≠ 1) :
    (deriveStatus j d sn s3).state = .starting ∧
      (deriveStatus j d sn s3).completedAt = none := by
  unfold deriveStatus
  simp [ha, hs, hf]

/-- Witness for C10 at a job with two successes and a completion time. -/
theorem c10_strict_equality_one_witness :
    (deriveStatus ⟨0, 2, 0, some t0⟩ "d" "p" none).state = .starting ∧
      (deriveStatus ⟨0, 2, 0, some t0⟩ "d" "p" none).completedAt = none :=
  c10_strict_equality_one ⟨0, 2, 0, some t0⟩ "d" "p" none
    (by decide) (by decide) (by decide)

/-- Claim C5: a candidate equal to the stored status yields success without
an update call; a differing candidate is persisted whole in one update
call; and a second pass over unchanged job counters never writes. -/
theorem c5_write_if_changed (stored : PXCBackupStatus) (j : JobStatus) (d sn : String)
    (s3 : Option BackupStorageS3Spec) (u : Option String) :
    (stored = deriveStatus j d sn s3 →
      updateJobStatus stored (.ok j) d sn s3 u = ⟨none, false, stored⟩) ∧
    (stored ≠ deriveStatus j d sn s3 →
      (updateJobStatus stored (.ok j) d sn s3 u).wrote = true ∧
      (updateJobStatus stored (.ok j) d sn s3 u).finalStored = deriveStatus j d sn s3) ∧
    (updateJobStatus (updateJobStatus stored (.ok j) d sn s3 none).finalStored
        (.ok j) d sn s3 none).wrote = false := by
  refine ⟨fun h => by simp [updateJobStatus, h], fun h => ?_, ?_⟩
  · rcases u with _ | m <;> simp [updateJobStatus, h]
  · by_cases h : stored = deriveStatus j d sn s3 <;> simp [updateJobStatus, h]

/-- Witness for C5: a first pass writes the derived status, a second pass
over the same counters does not write. -/
theorem c5_write_if_changed_witness :
    (updateJobStatus emptyStatus (.ok jobDone) "pvc/cluster1-xb-cron-pvc" "fs-pvc"
        none none).wrote = true ∧
    (updateJobStatus
        (updateJobStatus emptyStatus (.ok jobDone) "pvc/cluster1-xb-cron-pvc" "fs-pvc"
          none none).finalStored
        (.ok jobDone) "pvc/cluster1-xb-cron-pvc" "fs-pvc" none none).wrote = false :=
  ⟨((c5_write_if_changed emptyStatus jobDone "pvc/cluster1-xb-cron-pvc" "fs-pvc"
      none none).2.1 (by decide)).1,
    (c5_write_if_changed emptyStatus jobDone "pvc/cluster1-xb-cron-pvc" "fs-pvc"
      none none).2.2⟩

/-- Claim C6: when the named cluster is absent, reconciliation fails with
an error carrying the requested name and the names of every cluster
present in the namespace, and neither the volume create call nor the job
create call nor a status write happens. -/
theorem c6_cluster_not_found (env : Env) (inst : PerconaXtraDBBackup)
    (items : List PerconaXtraDBCluster)
    (hget : env.getBackup = .ok inst) (hlist : env.clusterList = .ok items)
    (habs : ∀ c ∈ items, c.name ≠ inst.spec.pxcCluster) :
    (reconcile env).error =
      some (.clusterNotFound inst.spec.pxcCluster (items.map (fun c => c.name))) ∧
    (reconcile env).effects.pvcCreates = [] ∧
    (reconcile env).effects.jobCreateTried = false ∧
    (reconcile env).effects.statusWrote = false := by
  have hf := findCluster_all_miss inst.spec.pxcCluster items [] habs
  unfold reconcile
  rw [hget, hlist]
  simp [hf, Effects.empty]

/-- Witness for C6: requesting cluster `other` in a namespace holding only
`some-name`. -/
theorem c6_cluster_not_found_witness :
    (reconcile envWrongCluster).error = some (.clusterNotFound "other" ["some-name"]) ∧
    (reconcile envWrongCluster).effects.pvcCreates = [] ∧
    (reconcile envWrongCluster).effects.jobCreateTried = false ∧
    (reconcile envWrongCluster).effects.statusWrote = false := by
  have h := c6_cluster_not_found envWrongCluster
    ⟨"b", "ns1", ⟨"other", "fs-pvc"⟩, t0, emptyStatus⟩ [clusterFS] rfl rfl (by decide)
  simpa using h

/-- Claim C8: a job create failure other than AlreadyExists aborts with the
error and without a status write; an AlreadyExists failure behaves exactly
like a successful creation; success proceeds to the status step, whose
error and write outcome become the reconciliation's. -/
theorem c8_job_creation_outcomes (env : Env) (stored : PXCBackupStatus) (d sn : String)
    (s3 : Option BackupStorageS3Spec) (effs : Effects) (hrj : env.setRefJob = none) :
    (∀ m, env.createJob = .err m →
      finishJob env stored d sn s3 effs =
        ⟨0, some (.createJob m), { effs with jobCreateTried := true }, some stored⟩) ∧
    (env.createJob = .alreadyExists →
      finishJob env stored d sn s3 effs =
        finishJob { env with createJob := .ok } stored d sn s3 effs) ∧
    (env.createJob = .ok →
      (finishJob env stored d sn s3 effs).error =
        (updateJobStatus stored env.getJob d sn s3 env.updateErr).error ∧
      (finishJob env stored d sn s3 effs).effects.statusWrote =
        (updateJobStatus stored env.getJob d sn s3 env.updateErr).wrote) := by
  refine ⟨fun m h => ?_, fun h => ?_, fun h => ?_⟩ <;> simp [finishJob, hrj, h]

/-- Witness for C8: AlreadyExists at the all-success environment behaves
like successful creation. -/
theorem c8_job_creation_outcomes_witness :
    finishJob { baseEnvFS with createJob := .alreadyExists } emptyStatus "d" "p" none
        Effects.empty =
      finishJob { { baseEnvFS with createJob := .alreadyExists } with createJob := .ok }
        emptyStatus "d" "p" none Effects.empty :=
  (c8_job_creation_outcomes { baseEnvFS with createJob := .alreadyExists } emptyStatus
    "d" "p" none Effects.empty rfl).2.1 rfl

/-- Auxiliary: a poll fetch that is not a non-NotFound error and does not
observe `Bound` performs one full loop iteration: record the observed
phase, sleep `i` seconds, and continue with the next attempt. -/
theorem pollAux_step (phase : Nat → GetResult VolumeStatus) (i k : Nat) (cur : VolumeStatus)
    (hnf : ∀ m, phase i ≠ .errMsg m) (hnb : observedPhase (phase i) ≠ .bound) :
    pollAux phase i (k + 1) cur =
      ⟨observedPhase (phase i) :: (pollAux phase (i + 1) k (observedPhase (phase i))).fetched,
        i :: (pollAux phase (i + 1) k (observedPhase (phase i))).sleeps,
        (pollAux phase (i + 1) k (observedPhase (phase i))).last,
        (pollAux phase (i + 1) k (observedPhase (phase i))).fatal⟩ := by
  rcases h : phase i with p | _ | m
  · have hp : p ≠ .bound := by simpa [observedPhase, h] using hnb
    simp [pollAux, h, observedPhase, hp]
  · simp [pollAux, h, observedPhase]
  · exact absurd h (hnf m)

/-- Auxiliary: a poll fetch observing `Bound` breaks out of the loop with
no further sleep. -/
theorem pollAux_bound (phase : Nat → GetResult VolumeStatus) (i k : Nat) (cur : VolumeStatus)
    (hb : phase i = .ok .bound) :
    pollAux phase i (k + 1) cur = ⟨[.bound], [], .bound, none⟩ := by
  simp [pollAux, hb]

/-- Auxiliary: the loop variable holds `Bound` exactly after a successful
fetch of phase `Bound`. -/
theorem observedPhase_bound {r : GetResult VolumeStatus} :
    observedPhase r = .bound ↔ r = .ok .bound := by
  rcases r with p | _ | m <;> simp [observedPhase]

/-- Auxiliary: every error `updateJobStatus` can produce is one of those
returned alongside the standing 5-second requeue. -/
theorem updateJobStatus_error_requeues (stored : PXCBackupStatus) (gj : GetResult JobStatus)
    (d sn : String) (s3 : Option BackupStorageS3Spec) (u : Option String) :
    requeues5 (updateJobStatus stored gj d sn s3 u).error = true := by
  unfold updateJobStatus
  rcases gj with j | _ | m
  · dsimp only
    split
    · rfl
    · rcases u with _ | m <;> rfl
  · rfl
  · rfl

/-- Auxiliary: errors returned alongside the requeue are never the poll
loop's `pvc not ready`. -/
theorem requeues5_ne_pvcNotReady {e : Option RcError} (h : requeues5 e = true)
    (st : VolumeStatus) : e ≠ some (.pvcNotReady st) := by
  rintro rfl
  simp [requeues5] at h

/-- Auxiliary: the common tail preserves the volume-create and poll
effects and never reports the poll loop's `pvc not ready` error. -/
theorem finishJob_frame (env : Env) (stored : PXCBackupStatus) (d sn : String)
    (s3 : Option BackupStorageS3Spec) (effs : Effects) :
    (finishJob env stored d sn s3 effs).effects.pvcCreates = effs.pvcCreates ∧
    (finishJob env stored d sn s3 effs).effects.pollFetches = effs.pollFetches ∧
    (finishJob env stored d sn s3 effs).effects.sleeps = effs.sleeps ∧
    ∀ st, (finishJob env stored d sn s3 effs).error ≠ some (.pvcNotReady st) := by
  unfold finishJob
  split
  · simp
  · split
    · simp
    · refine ⟨rfl, rfl, rfl, fun st => ?_⟩
      exact requeues5_ne_pvcNotReady
        (updateJobStatus_error_requeues stored env.getJob d sn s3 env.updateErr) st

/-- Auxiliary: a poll outcome ending without a fatal error and without
`Bound` aborts the reconciliation with `pvc not ready` carrying the last
observed phase, after recording the poll effects. -/
theorem pollDone_not_bound (env : Env) (inst : PerconaXtraDBBackup) (p : PollOut)
    (effs : Effects) (hfatal : p.fatal = none) (hlast : p.last ≠ .bound) :
    pollDone env inst p effs =
      ⟨0, some (.pvcNotReady p.last),
        { effs with pollFetches := p.fetched, sleeps := p.sleeps }, some inst.status⟩ := by
  unfold pollDone
  rw [hfatal]
  simp [hlast]

/-- Auxiliary: a poll outcome ending on `Bound` records the poll effects
and continues; whatever happens next is not a `pvc not ready` error. -/
theorem pollDone_bound (env : Env) (inst : PerconaXtraDBBackup) (p : PollOut)
    (effs : Effects) (hfatal : p.fatal = none) (hlast : p.last = .bound) :
    (pollDone env inst p effs).effects.pollFetches = p.fetched ∧
    (pollDone env inst p effs).effects.sleeps = p.sleeps ∧
    ∀ st, (pollDone env inst p effs).error ≠ some (.pvcNotReady st) := by
  unfold pollDone
  rw [hfatal]
  simp only [hlast, if_true]
  split
  · simp
  · refine ⟨(finishJob_frame env inst.status _ _ none _).2.1,
      (finishJob_frame env inst.status _ _ none _).2.2.1,
      (finishJob_frame env inst.status _ _ none _).2.2.2⟩

/-- Auxiliary: once the owner reference succeeds, the filesystem branch
reaches the poll loop — directly when the pre-creation fetch returns
NotFound and the create succeeds (recording the create), and equally when
the fetch succeeds or fails with any other error (recording nothing). -/
theorem fsPath_to_poll (env : Env) (inst : PerconaXtraDBBackup)
    (href : env.setRefPVC = none) :
    (env.preGetPVC = .ok () →
      fsPath env inst = pollDone env inst (pollPVC env.pollPhase) Effects.empty) ∧
    (∀ m, env.preGetPVC = .errMsg m →
      fsPath env inst = pollDone env inst (pollPVC env.pollPhase) Effects.empty) ∧
    (env.preGetPVC = .notFound → env.createPVC = .ok →
      fsPath env inst =
        pollDone env inst (pollPVC env.pollPhase)
          { Effects.empty with pvcCreates := [backupPVCName] }) := by
  refine ⟨fun h => ?_, fun m h => ?_, fun h hc => ?_⟩
  · simp [fsPath, href, h, fsPoll]
  · simp [fsPath, href, h, fsPoll]
  · simp [fsPath, href, h, hc, fsPoll]

/-- Auxiliary: when no poll fetch fails fatally and no attempt observes
`Bound`, the loop runs all five attempts and sleeps 1,2,3,4,5 seconds. -/
theorem pollPVC_never_bound (phase : Nat → GetResult VolumeStatus)
    (hnf : ∀ i, 1 ≤ i → i ≤ 5 → ∀ m, phase i ≠ .errMsg m)
    (hnb : ∀ i, 1 ≤ i → i ≤ 5 → observedPhase (phase i) ≠ .bound) :
    pollPVC phase =
      ⟨[observedPhase (phase 1), observedPhase (phase 2), observedPhase (phase 3),
        observedPhase (phase 4), observedPhase (phase 5)],
        [1, 2, 3, 4, 5], observedPhase (phase 5), none⟩ := by
  have e1 := pollAux_step phase 1 4 .undefined (hnf 1 (by norm_num) (by norm_num))
    (hnb 1 (by norm_num) (by norm_num))
  have e2 := pollAux_step phase 2 3 (observedPhase (phase 1)) (hnf 2 (by norm_num) (by norm_num))
    (hnb 2 (by norm_num) (by norm_num))
  have e3 := pollAux_step phase 3 2 (observedPhase (phase 2)) (hnf 3 (by norm_num) (by norm_num))
    (hnb 3 (by norm_num) (by norm_num))
  have e4 := pollAux_step phase 4 1 (observedPhase (phase 3)) (hnf 4 (by norm_num) (by norm_num))
    (hnb 4 (by norm_num) (by norm_num))
  have e5 := pollAux_step phase 5 0 (observedPhase (phase 4)) (hnf 5 (by norm_num) (by norm_num))
    (hnb 5 (by norm_num) (by norm_num))
  norm_num at e1 e2 e3 e4 e5
  unfold pollPVC
  rw [e1, e2, e3, e4, e5]
  simp [pollAux]

/-- Claim C1 (amended): on the filesystem path that reaches the poll loop,
with no non-NotFound fetch error: if no attempt observes `Bound`, the
phase is fetched exactly 5 times and the loop sleeps i seconds after
EVERY failed attempt i — the fifth included, so cumulative sleep is
1+2+3+4+5 = 15 seconds and a sleep does occur after the final check —
before the reconciliation fails with `pvc not ready` carrying the last
observed phase; if the first `Bound` observation is at attempt j, the
loop stops there with j fetches, sleeps 1..j-1, and no such failure. -/
theorem c1_poll_loop_amended (env : Env) (inst : PerconaXtraDBBackup)
    (href : env.setRefPVC = none) (hpre : env.preGetPVC = .ok ())
    (hnf : ∀ i, 1 ≤ i → i ≤ 5 → ∀ m, env.pollPhase i ≠ .errMsg m) :
    ((∀ i, 1 ≤ i → i ≤ 5 → observedPhase (env.pollPhase i) ≠ .bound) →
      (fsPath env inst).effects.pollFetches.length = 5 ∧
      (fsPath env inst).effects.sleeps = [1, 2, 3, 4, 5] ∧
      (fsPath env inst).effects.sleeps.sum = 15 ∧
      (fsPath env inst).error = some (.pvcNotReady (observedPhase (env.pollPhase 5)))) ∧
    (∀ j, 1 ≤ j → j ≤ 5 → observedPhase (env.pollPhase j) = .bound →
      (∀ i, 1 ≤ i → i < j → observedPhase (env.pollPhase i) ≠ .bound) →
      (fsPath env inst).effects.pollFetches.length = j ∧
      (fsPath env inst).effects.sleeps = (List.range (j - 1)).map (fun t => t + 1) ∧
      ∀ st, (fsPath env inst).error ≠ some (.pvcNotReady st)) := by
  have hfs := (fsPath_to_poll env inst href).1 hpre
  constructor
  · intro hnb
    have hp := pollPVC_never_bound env.pollPhase hnf hnb
    rw [hfs, hp, pollDone_not_bound env inst _ Effects.empty rfl
      (hnb 5 (by norm_num) (by norm_num))]
    refine ⟨rfl, rfl, by norm_num, rfl⟩
  · intro j hj1 hj5 hb hprev
    have hbp : env.pollPhase j = .ok .bound := observedPhase_bound.mp hb
    interval_cases j
    · have b1 := pollAux_bound env.pollPhase 1 4 .undefined hbp
      norm_num at b1
      have hp : pollPVC env.pollPhase = ⟨[.bound], [], .bound, none⟩ := by
        unfold pollPVC; rw [b1]
      rw [hfs, hp]
      obtain ⟨h1, h2, h3⟩ :=
        pollDone_bound env inst ⟨[.bound], [], .bound, none⟩ Effects.empty rfl rfl
      exact ⟨by simp [h1], by rw [h2]; dsimp only; decide, h3⟩
    · have e1 := pollAux_step env.pollPhase 1 4 .undefined
        (hnf 1 (by norm_num) (by norm_num)) (hprev 1 (by norm_num) (by norm_num))
      have b2 := pollAux_bound env.pollPhase 2 3 (observedPhase (env.pollPhase 1)) hbp
      norm_num at e1 b2
      have hp : pollPVC env.pollPhase =
          ⟨[observedPhase (env.pollPhase 1), .bound], [1], .bound, none⟩ := by
        unfold pollPVC; rw [e1, b2]
      rw [hfs, hp]
      obtain ⟨h1, h2, h3⟩ := pollDone_bound env inst
        ⟨[observedPhase (env.pollPhase 1), .bound], [1], .bound, none⟩ Effects.empty rfl rfl
      exact ⟨by simp [h1], by rw [h2]; dsimp only; decide, h3⟩
    · have e1 := pollAux_step env.pollPhase 1 4 .undefined
        (hnf 1 (by norm_num) (by norm_num)) (hprev 1 (by norm_num) (by norm_num))
      have e2 := pollAux_step env.pollPhase 2 3 (observedPhase (env.pollPhase 1))
        (hnf 2 (by norm_num) (by norm_num)) (hprev 2 (by norm_num) (by norm_num))
      have b3 := pollAux_bound env.pollPhase 3 2 (observedPhase (env.pollPhase 2)) hbp
      norm_num at e1 e2 b3
      have hp : pollPVC env.pollPhase =
          ⟨[observedPhase (env.pollPhase 1), observedPhase (env.pollPhase 2), .bound],
            [1, 2], .bound, none⟩ := by
        unfold pollPVC; rw [e1, e2, b3]
      rw [hfs, hp]
      obtain ⟨h1, h2, h3⟩ := pollDone_bound env inst
        ⟨[observedPhase (env.pollPhase 1), observedPhase (env.pollPhase 2), .bound],
          [1, 2], .bound, none⟩ Effects.empty rfl rfl
      exact ⟨by simp [h1], by rw [h2]; dsimp only; decide, h3⟩
    · have e1 := pollAux_step env.pollPhase 1 4 .undefined
        (hnf 1 (by norm_num) (by norm_num)) (hprev 1 (by norm_num) (by norm_num))
      have e2 := pollAux_step env.pollPhase 2 3 (observedPhase (env.pollPhase 1))
        (hnf 2 (by norm_num) (by norm_num)) (hprev 2 (by norm_num) (by norm_num))
      have e3 := pollAux_step env.pollPhase 3 2 (observedPhase (env.pollPhase 2))
        (hnf 3 (by norm_num) (by norm_num)) (hprev 3 (by norm_num) (by norm_num))
      have b4 := pollAux_bound env.pollPhase 4 1 (observedPhase (env.pollPhase 3)) hbp
      norm_num at e1 e2 e3 b4
      have hp : pollPVC env.pollPhase =
          ⟨[observedPhase (env.pollPhase 1), observedPhase (env.pollPhase 2),
            observedPhase (env.pollPhase 3), .bound], [1, 2, 3], .bound, none⟩ := by
        unfold pollPVC; rw [e1, e2, e3, b4]
      rw [hfs, hp]
      obtain ⟨h1, h2, h3⟩ := pollDone_bound env inst
        ⟨[observedPhase (env.pollPhase 1), observedPhase (env.pollPhase 2),
          observedPhase (env.pollPhase 3), .bound], [1, 2, 3], .bound, none⟩
        Effects.empty rfl rfl
      exact ⟨by simp [h1], by rw [h2]; dsimp only; decide, h3⟩
    · have e1 := pollAux_step env.pollPhase 1 4 .undefined
        (hnf 1 (by norm_num) (by norm_num)) (hprev 1 (by norm_num) (by norm_num))
      have e2 := pollAux_step env.pollPhase 2 3 (observedPhase (env.pollPhase 1))
        (hnf 2 (by norm_num) (by norm_num)) (hprev 2 (by norm_num) (by norm_num))
      have e3 := pollAux_step env.pollPhase 3 2 (observedPhase (env.pollPhase 2))
        (hnf 3 (by norm_num) (by norm_num)) (hprev 3 (by norm_num) (by norm_num))
      have e4 := pollAux_step env.pollPhase 4 1 (observedPhase (env.pollPhase 3))
        (hnf 4 (by norm_num) (by norm_num)) (hprev 4 (by norm_num) (by norm_num))
      have b5 := pollAux_bound env.pollPhase 5 0 (observedPhase (env.pollPhase 4)) hbp
      norm_num at e1 e2 e3 e4 b5
      have hp : pollPVC env.pollPhase =
          ⟨[observedPhase (env.pollPhase 1), observedPhase (env.pollPhase 2),
            observedPhase (env.pollPhase 3), observedPhase (env.pollPhase 4), .bound],
            [1, 2, 3, 4], .bound, none⟩ := by
        unfold pollPVC; rw [e1, e2, e3, e4, b5]
      rw [hfs, hp]
      obtain ⟨h1, h2, h3⟩ := pollDone_bound env inst
        ⟨[observedPhase (env.pollPhase 1), observedPhase (env.pollPhase 2),
          observedPhase (env.pollPhase 3), observedPhase (env.pollPhase 4), .bound],
          [1, 2, 3, 4], .bound, none⟩ Effects.empty rfl rfl
      exact ⟨by simp [h1], by rw [h2]; dsimp only; decide, h3⟩

/-- Witness for C1 (amended): at the never-bound environment the sleeps
are 1,2,3,4,5 seconds and the failure carries the last phase. -/
theorem c1_poll_loop_amended_witness :
    (fsPath envC1Wit instFS).effects.pollFetches.length = 5 ∧
    (fsPath envC1Wit instFS).effects.sleeps = [1, 2, 3, 4, 5] ∧
    (fsPath envC1Wit instFS).effects.sleeps.sum = 15 ∧
    (fsPath envC1Wit instFS).error = some (.pvcNotReady .pending) :=
  (c1_poll_loop_amended envC1Wit instFS rfl rfl
      (fun i _ _ m => by simp [envC1Wit, envNeverBound, baseEnvFS])).1
    (fun i _ _ => by simp [envC1Wit, envNeverBound, baseEnvFS, observedPhase])

/-- Claim C1 counterexample: with the phase `Pending` at every poll, the
loop sleeps after every failed attempt, the fifth included — the sleep
sequence is `[1,2,3,4,5]` totalling 15 seconds, not the claimed
`[1,2,3,4]` totalling 10 — before failing with `pvc not ready` carrying
the last observed phase. -/
theorem c1_counterexample :
    (reconcile envNeverBound).effects.sleeps = [1, 2, 3, 4, 5] ∧
    (reconcile envNeverBound).effects.sleeps.sum = 15 ∧
    (reconcile envNeverBound).effects.sleeps ≠ [1, 2, 3, 4] ∧
    (reconcile envNeverBound).effects.pollFetches.length = 5 ∧
    (reconcile envNeverBound).error = some (.pvcNotReady .pending) := by
  decide

/-- Auxiliary: the requeue delay of the common tail is 5 seconds exactly
when its error is one of the status-step errors (or none). -/
theorem finishJob_requeue (env : Env) (stored : PXCBackupStatus) (d sn : String)
    (s3 : Option BackupStorageS3Spec) (effs : Effects) :
    (finishJob env stored d sn s3 effs).requeueAfter =
      (if requeues5 (finishJob env stored d sn s3 effs).error = true then 5 else 0) := by
  unfold finishJob
  split
  · simp [requeues5]
  · split
    · simp [requeues5]
    · simp [updateJobStatus_error_requeues]

/-- Auxiliary: the requeue delay after the poll loop is 5 seconds exactly
when the error is a status-step error (or none). -/
theorem pollDone_requeue (env : Env) (inst : PerconaXtraDBBackup) (p : PollOut)
    (effs : Effects) :
    (pollDone env inst p effs).requeueAfter =
      (if requeues5 (pollDone env inst p effs).error = true then 5 else 0) := by
  unfold pollDone
  split
  · simp [requeues5]
  · split
    · split
      · simp [requeues5]
      · exact finishJob_requeue env inst.status _ inst.spec.storageName none _
    · simp [requeues5]

/-- Auxiliary: the requeue delay of the filesystem branch is 5 seconds
exactly when the error is a status-step error (or none). -/
theorem fsPath_requeue (env : Env) (inst : PerconaXtraDBBackup) :
    (fsPath env inst).requeueAfter =
      (if requeues5 (fsPath env inst).error = true then 5 else 0) := by
  unfold fsPath fsPoll
  split
  · simp [requeues5]
  · split
    · split
      · exact pollDone_requeue env inst _ _
      · simp [requeues5]
      · simp [requeues5]
    · exact pollDone_requeue env inst _ _
    · exact pollDone_requeue env inst _ _

/-- Auxiliary: the requeue delay of the object-storage branch is 5 seconds
exactly when the error is a status-step error (or none). -/
theorem s3Path_requeue (env : Env) (inst : PerconaXtraDBBackup)
    (storage : BackupStorageSpec) :
    (s3Path env inst storage).requeueAfter =
      (if requeues5 (s3Path env inst storage).error = true then 5 else 0) := by
  unfold s3Path
  split
  · simp [requeues5]
  · exact finishJob_requeue env inst.status _ inst.spec.storageName _ Effects.empty

/-- Claim C2 counterexample: a vanished backup request still yields the
5-second requeue result (the claim says no requeue), and a fatal failure
(cluster without backup sub-spec) yields the empty result, delay 0,
alongside the error (the claim says the 5-second delay). -/
theorem c2_counterexample :
    (reconcile envNotFoundReq).error = none ∧
    (reconcile envNotFoundReq).requeueAfter = 5 ∧
    (reconcile envNoBackupSection).error = some .noBackupImage ∧
    (reconcile envNoBackupSection).requeueAfter = 0 := by
  decide

/-- Claim C2 (amended): a vanished backup request stops with no error but
still returns the fixed 5-second requeue result; in every case the
result's delay is 5 seconds exactly when the reconciliation either
succeeded or failed in the status step (whose error rides along with the
requeue), while every earlier fatal failure returns the empty result —
delay 0 — alongside its error. -/
theorem c2_requeue_amended (env : Env) :
    (env.getBackup = .notFound → reconcile env = ⟨5, none, Effects.empty, none⟩) ∧
    (reconcile env).requeueAfter =
      (if requeues5 (reconcile env).error = true then 5 else 0) := by
  constructor
  · intro h
    unfold reconcile
    rw [h]
  · rcases hg : env.getBackup with inst | _ | m
    · rcases hc : env.clusterList with m | items
      · simp [reconcile, hg, hc, requeues5]
      · rcases hf : findCluster inst.spec.pxcCluster items [] with avail | cluster
        · simp [reconcile, hg, hc, hf, requeues5]
        · rcases hb : cluster.backup with _ | bspec
          · simp [reconcile, hg, hc, hf, hb, requeues5]
          · rcases hn : env.selectNode with m | node
            · simp [reconcile, hg, hc, hf, hb, hn, requeues5]
            · rcases hl : lookupStorage bspec.storages inst.spec.storageName with _ | storage
              · simp [reconcile, hg, hc, hf, hb, hn, hl, requeues5]
              · rcases ht : storage.type with _ | _ | t
                · have h5 := fsPath_requeue env inst
                  simpa [reconcile, hg, hc, hf, hb, hn, hl, ht] using h5
                · have h5 := s3Path_requeue env inst storage
                  simpa [reconcile, hg, hc, hf, hb, hn, hl, ht] using h5
                · have h5 := finishJob_requeue env inst.status "" inst.spec.storageName
                    none Effects.empty
                  simpa [reconcile, hg, hc, hf, hb, hn, hl, ht] using h5
    · simp [reconcile, hg, requeues5]
    · simp [reconcile, hg, requeues5]

/-- Witness for C2 (amended) at the vanished-request environment. -/
theorem c2_requeue_amended_witness :
    reconcile envNotFoundReq = ⟨5, none, Effects.empty, none⟩ ∧
    (reconcile envNotFoundReq).requeueAfter =
      (if requeues5 (reconcile envNotFoundReq).error = true then 5 else 0) :=
  ⟨(c2_requeue_amended envNotFoundReq).1 rfl, (c2_requeue_amended envNotFoundReq).2⟩

/-- Claim C9 counterexample: a non-NotFound failure of the pre-creation
volume fetch does not abort: the create is skipped, reconciliation runs to
completion with no error, and the status is still written. -/
theorem c9_counterexample :
    (reconcile envPreGetFails).error = none ∧
    (reconcile envPreGetFails).effects.pvcCreates = [] ∧
    (reconcile envPreGetFails).effects.statusWrote = true := by
  decide

/-- Auxiliary: the poll continuation never touches the record of volume
create calls. -/
theorem pollDone_pvcCreates (env : Env) (inst : PerconaXtraDBBackup) (p : PollOut)
    (effs : Effects) :
    (pollDone env inst p effs).effects.pvcCreates = effs.pvcCreates := by
  unfold pollDone
  split
  · rfl
  · split
    · split
      · rfl
      · exact (finishJob_frame env inst.status _ inst.spec.storageName none _).1
    · rfl

/-- Claim C9 (amended): a non-NotFound failure of the pre-creation volume
fetch does not abort the reconciliation with that error: the create call
is skipped and the filesystem branch continues exactly as in the
volume-already-exists case, with no volume creation performed. -/
theorem c9_absorbed_fetch_error (env : Env) (inst : PerconaXtraDBBackup) (m : String) :
    fsPath { env with preGetPVC := .errMsg m } inst =
      fsPath { env with preGetPVC := .ok () } inst ∧
    (fsPath { env with preGetPVC := .errMsg m } inst).effects.pvcCreates = [] := by
  constructor
  · rfl
  · rcases h : env.setRefPVC with _ | m'
    · have hpc := pollDone_pvcCreates { env with preGetPVC := GetResult.errMsg m } inst
        (pollPVC env.pollPhase) Effects.empty
      simpa [fsPath, h, fsPoll, Effects.empty] using hpc
    · simp [fsPath, h, Effects.empty]

/-- Claim C4 counterexample: for the bucket `s3://s3://b` the prefix is not
prepended, yet the destination contains `s3://` twice, refuting the
claimed "prefix appears exactly once". -/
theorem c4_counterexample :
    countOccur "s3://" (statusDestination (reconcile (envS3 "s3://s3://b"))) = 2 := by
  decide

/-- Auxiliary: the derived candidate always echoes the destination, the
storage name and the S3 descriptor it was given. -/
theorem deriveStatus_fields (j : JobStatus) (d sn : String)
    (s3 : Option BackupStorageS3Spec) :
    (deriveStatus j d sn s3).destination = d ∧
    (deriveStatus j d sn s3).storageName = sn ∧
    (deriveStatus j d sn s3).s3 = s3 := by
  unfold deriveStatus
  split
  · exact ⟨rfl, rfl, rfl⟩
  · split
    · exact ⟨rfl, rfl, rfl⟩
    · split
      · exact ⟨rfl, rfl, rfl⟩
      · exact ⟨rfl, rfl, rfl⟩

/-- Claim C4 (amended): the destination persisted on the object-storage
path equals `bucket + "/" + cluster + "-" + timestamp(YYYY-DD-MM-HH:MM:SS)
+ "-xtrabackup.stream"` with `s3://` prepended to the whole string exactly
when the bucket does not already start with it, so the operator itself
never stacks a second prefix; the prefix occurs exactly once for buckets
free of embedded occurrences (both spec example buckets), though
occurrences already inside the bucket are kept; the worked example holds. -/
theorem c4_destination_amended (env : Env) (inst : PerconaXtraDBBackup)
    (storage : BackupStorageSpec) (j : JobStatus)
    (hs3 : env.setStorageS3 = none) (hrj : env.setRefJob = none)
    (hcj : env.createJob = .ok) (hgj : env.getJob = .ok j) (hupd : env.updateErr = none)
    (hne : inst.status ≠ deriveStatus j
      (s3Destination storage.s3.bucket inst.spec.pxcCluster inst.creationTimestamp)
      inst.spec.storageName (some storage.s3)) :
    statusDestination (s3Path env inst storage) =
      s3Destination storage.s3.bucket inst.spec.pxcCluster inst.creationTimestamp ∧
    (∀ b c : String, ∀ t : GoTime,
      (goHasPrefix b "s3://" = false →
        s3Destination b c t =
          "s3://" ++ (b ++ "/" ++ c ++ "-" ++ formatBackupTime t ++ "-xtrabackup.stream")) ∧
      (goHasPrefix b "s3://" = true →
        s3Destination b c t =
          b ++ "/" ++ c ++ "-" ++ formatBackupTime t ++ "-xtrabackup.stream")) ∧
    s3Destination "mybucket" "some-name" t0 =
      "s3://mybucket/some-name-2024-07-03-15:04:05-xtrabackup.stream" ∧
    countOccur "s3://" (s3Destination "mybucket" "some-name" t0) = 1 ∧
    countOccur "s3://" (s3Destination "s3://mybucket" "some-name" t0) = 1 := by
  refine ⟨?_, ?_, by decide, by decide, by decide⟩
  · have hd := (deriveStatus_fields j
      (s3Destination storage.s3.bucket inst.spec.pxcCluster inst.creationTimestamp)
      inst.spec.storageName (some storage.s3)).1
    simp [s3Path, hs3, finishJob, hrj, hcj, updateJobStatus, hgj, hupd, hne,
      statusDestination, hd]
  · intro b c t
    constructor <;> intro h <;> simp [s3Destination, h]

/-- Witness for C4 (amended) at the spec's worked example. -/
theorem c4_destination_amended_witness :
    statusDestination (s3Path (envS3 "mybucket") instS3 (s3Storage "mybucket")) =
      "s3://mybucket/some-name-2024-07-03-15:04:05-xtrabackup.stream" := by
  have h := (c4_destination_amended (envS3 "mybucket") instS3 (s3Storage "mybucket") jobDone
    rfl rfl rfl rfl rfl (by decide)).1
  rw [h]
  decide

/-- Claim C7: the volume name on the filesystem path is one fixed literal,
`cluster1-xb-cron-pvc`, identical for every backup request, and the
recorded destination is exactly `pvc/` followed by that name; hence any
two filesystem-profile requests resolve to the same volume name. -/
theorem c7_fixed_volume_name (env : Env) (inst : PerconaXtraDBBackup) (j : JobStatus)
    (href : env.setRefPVC = none) (hpre : env.preGetPVC = .notFound)
    (hcr : env.createPVC = .ok) (hb : env.pollPhase 1 = .ok .bound)
    (hsp : env.setStoragePVC = none) (hrj : env.setRefJob = none)
    (hcj : env.createJob = .ok) (hgj : env.getJob = .ok j) (hupd : env.updateErr = none)
    (hne : inst.status ≠
      deriveStatus j ("pvc/" ++ backupPVCName) inst.spec.storageName none) :
    backupPVCName = "cluster1-xb-cron-pvc" ∧
    (fsPath env inst).effects.pvcCreates = [backupPVCName] ∧
    statusDestination (fsPath env inst) = "pvc/" ++ backupPVCName := by
  have hfs := (fsPath_to_poll env inst href).2.2 hpre hcr
  have b1 := pollAux_bound env.pollPhase 1 4 .undefined hb
  norm_num at b1
  have hp : pollPVC env.pollPhase = ⟨[.bound], [], .bound, none⟩ := by
    unfold pollPVC; rw [b1]
  rw [hfs, hp]
  refine ⟨rfl, ?_, ?_⟩
  · rw [pollDone_pvcCreates]
  · have hd := (deriveStatus_fields j ("pvc/" ++ backupPVCName)
      inst.spec.storageName none).1
    simp [pollDone, hsp, finishJob, hrj, hcj, updateJobStatus, hgj, hupd, hne,
      statusDestination, hd]

/-- Witness for C7 at the all-success environment. -/
theorem c7_fixed_volume_name_witness :
    (fsPath baseEnvFS instFS).effects.pvcCreates = ["cluster1-xb-cron-pvc"] ∧
    statusDestination (fsPath baseEnvFS instFS) = "pvc/cluster1-xb-cron-pvc" := by
  have h := c7_fixed_volume_name baseEnvFS instFS jobDone rfl rfl rfl rfl rfl rfl rfl rfl
    rfl (by decide)
  refine ⟨?_, ?_⟩
  · rw [h.2.1]; decide
  · rw [h.2.2]; decide

end PXCBackup
